import Mathlib

/-!
# Verification of the pico-template actor / channel / scheduling core

Shallow embedding of the repository's actor layer:

* the three state-machine actors (`ButtonActor`, `MaintenanceActor`,
  `RealtimeControlActor`), whose transition functions live in the
  build-generated module `pico_template::generated` (not present in the
  source tree) and are therefore modelled from the specification;
* the bounded non-blocking FIFO channel (the `embassy_sync` channel used by
  the code, modelled from the specification's channel contract);
* the hardware-bound wrappers `ButtonActorHw::step` (src/button_hw.rs),
  `MaintenanceActorHw::step` (src/maintenance_hw.rs),
  `ControlActorHw::step` (src/control_hw.rs), translated from the source;
* the timing skeleton of one `control_task` loop iteration (src/main.rs).

Hardware effects are made observable in the embedding: the physical LED
level is a `Bool` field of the maintenance wrapper state, the sampled pin
level is an input to the button wrapper's step, and each wrapper step
additionally returns the message it handed to `try_send` (the source logs
and sends at those points; the returned value is that observation).
-/

set_option autoImplicit false

namespace Pico

/-! ## Messages (src/src/messages.rs) -/

/-- Messages from button actor to control actor (src/messages.rs). -/
inductive ButtonMessage where
  | Pressed
  | Released
deriving DecidableEq, Repr

/-- Messages from maintenance actor to control actor (src/messages.rs).
`tick_count` is a signed 32-bit counter in the source; it is embedded as
`Int` (the spec describes it as a monotonic counter and no claim reaches
the overflow regime). -/
structure MaintenanceMessage where
  system_ok : Bool
  led_state : Bool
  tick_count : Int
deriving DecidableEq, Repr

/-! ## Bounded non-blocking channel

Modelled from the spec: the `embassy_sync` channel itself is an external
crate, specified in §3 as a bounded FIFO of fixed capacity whose `try_send`
never blocks and drops the message when the channel is full, and whose
`try_receive` is a non-blocking poll. -/

/-- Modelled from the spec: bounded FIFO channel state; `queue` holds the
pending messages, oldest first. -/
structure Channel (α : Type) (cap : Nat) where
  queue : List α
deriving DecidableEq, Repr

/-- Modelled from the spec: a freshly constructed channel is empty
(`Channel::new()` in src/main.rs). -/
def Channel.new {α : Type} {cap : Nat} : Channel α cap := ⟨[]⟩

/-- Modelled from the spec: non-blocking send. Appends to the back when
there is room and reports success; on a full channel the message is
dropped, the channel is unchanged, and failure is reported. Never blocks
(it is a total function). -/
def Channel.trySend {α : Type} {cap : Nat} (c : Channel α cap) (m : α) :
    Channel α cap × Bool :=
  if c.queue.length < cap then (⟨c.queue ++ [m]⟩, true) else (c, false)

/-- Modelled from the spec: non-blocking receive. Pops the oldest message
when one is pending, returns `none` on an empty channel. -/
def Channel.tryReceive {α : Type} {cap : Nat} (c : Channel α cap) :
    Option (α × Channel α cap) :=
  match c with
  | ⟨[]⟩ => none
  | ⟨m :: rest⟩ => some (m, ⟨rest⟩)

/-- Repeated `trySend` of a list of messages, oldest first, discarding the
success flags exactly as the `let _ = ...try_send(...)` call sites do. -/
def Channel.sendAll {α : Type} {cap : Nat} (c : Channel α cap) :
    List α → Channel α cap
  | [] => c
  | m :: rest => Channel.sendAll (c.trySend m).1 rest

/-- Helper for `Channel.drain`: pop messages off the pending queue one at
a time, front first, until it is empty. -/
def Channel.drainQueue {α : Type} {cap : Nat} : List α → List α × Channel α cap
  | [] => ([], ⟨[]⟩)
  | m :: rest =>
      let r : List α × Channel α cap := Channel.drainQueue rest
      (m :: r.1, r.2)

/-- Receive in a loop until `tryReceive` fails, as the
`while let Ok(msg) = ...try_receive()` drain loops of
`ControlActorHw::step` do: returns the received messages in arrival order
and the (empty) channel left behind. -/
def Channel.drain {α : Type} {cap : Nat} (c : Channel α cap) :
    List α × Channel α cap :=
  Channel.drainQueue c.queue

/-! ## ButtonActor

Modelled from the spec: the transition function is generated code absent
from the tree. §3/§4.1: states {Idle, Notifying, Released}; `step()`
consumes the latched `pressed` boolean and advances by one transition
check; the press edge enters `Notifying` and increments `press_count`; the
actor stays in `Notifying` while the button is held (no duplicate
notifications); release leaves `Notifying` for `Released`; an unpressed
actor then returns to the `Idle` rest state (stepping with
`pressed = false` keeps an idle actor in `Idle` indefinitely), and a new
press is again a press edge. -/

/-- Modelled from the spec: button state machine states (§3). -/
inductive ButtonActorState where
  | Idle
  | Notifying
  | Released
deriving DecidableEq, Repr

/-- Modelled from the spec: button actor fields (§3). -/
structure ButtonActor where
  state : ButtonActorState
  pressed : Bool
  press_count : Nat
deriving DecidableEq, Repr

/-- Modelled from the spec: documented initial state (§8, and the
assertions of tests/integration.rs `test_button_actor_init`). -/
def ButtonActor.new : ButtonActor :=
  { state := .Idle, pressed := false, press_count := 0 }

/-- Modelled from the spec: one transition check on the latched `pressed`
input (§4.1). -/
def ButtonActor.step (a : ButtonActor) : ButtonActor :=
  match a.state, a.pressed with
  | .Idle, true => { a with state := .Notifying, press_count := a.press_count + 1 }
  | .Idle, false => a
  | .Notifying, true => a
  | .Notifying, false => { a with state := .Released }
  | .Released, true => { a with state := .Notifying, press_count := a.press_count + 1 }
  | .Released, false => { a with state := .Idle }

/-! ## MaintenanceActor

Modelled from the spec: generated code absent from the tree. §3/§4.2:
`step()` advances one position in the fixed cycle
Idle→Checking→Toggling→Reporting→Idle regardless of input; `led_state`
flips exactly once per cycle, on entry to `Toggling`; `tick_count`
increments once per `step()`; `system_ok` is a deterministic placeholder
(§9 open question) and is left unchanged, `true` from construction. -/

/-- Modelled from the spec: maintenance state machine states (§3). -/
inductive MaintenanceActorState where
  | Idle
  | Checking
  | Toggling
  | Reporting
deriving DecidableEq, Repr

/-- Modelled from the spec: maintenance actor fields (§3); `tick_count` is
signed 32-bit in the source, embedded as `Int`. -/
structure MaintenanceActor where
  state : MaintenanceActorState
  tick_count : Int
  led_state : Bool
  system_ok : Bool
deriving DecidableEq, Repr

/-- Modelled from the spec: documented initial state (§8, and the
assertions of tests/integration.rs `test_maintenance_actor_init`). -/
def MaintenanceActor.new : MaintenanceActor :=
  { state := .Idle, tick_count := 0, led_state := false, system_ok := true }

/-- Modelled from the spec: advance one position in the 4-state cycle,
flip `led_state` on entry to `Toggling`, increment `tick_count` (§4.2). -/
def MaintenanceActor.step (a : MaintenanceActor) : MaintenanceActor :=
  match a.state with
  | .Idle => { a with state := .Checking, tick_count := a.tick_count + 1 }
  | .Checking =>
      { a with state := .Toggling, led_state := !a.led_state,
               tick_count := a.tick_count + 1 }
  | .Toggling => { a with state := .Reporting, tick_count := a.tick_count + 1 }
  | .Reporting => { a with state := .Idle, tick_count := a.tick_count + 1 }

/-- Position of a maintenance state in the fixed cycle
Idle→Checking→Toggling→Reporting (specification vocabulary for stating the
one-position-per-step invariant). -/
def MaintenanceActorState.pos : MaintenanceActorState → Nat
  | .Idle => 0
  | .Checking => 1
  | .Toggling => 2
  | .Reporting => 3

/-! ## RealtimeControlActor

Modelled from the spec: generated code absent from the tree. §3/§4.3:
`cycle_count` increments exactly once per `step()`; the guards updating
`enabled` / `error_flag` are implementation-defined deterministic
placeholders (§9), embedded as the identity. -/

/-- Modelled from the spec: control actor fields (§3). -/
structure RealtimeControlActor where
  cycle_count : Nat
  enabled : Bool
  error_flag : Bool
deriving DecidableEq, Repr

/-- Modelled from the spec: documented initial state (§8, and the
assertions of tests/integration.rs `test_control_actor_init`). -/
def RealtimeControlActor.new : RealtimeControlActor :=
  { cycle_count := 0, enabled := true, error_flag := false }

/-- Modelled from the spec: increment `cycle_count`; `enabled` and
`error_flag` are deterministic placeholders left unchanged (§4.3, §9). -/
def RealtimeControlActor.step (a : RealtimeControlActor) : RealtimeControlActor :=
  { a with cycle_count := a.cycle_count + 1 }

/-! ## Hardware-bound wrappers (translated from src/src) -/

/-- Button wrapper state (src/button_hw.rs `ButtonActorHw`): the actor and
its outbound capacity-4 channel. The physical pin is an input to `step`
(the wrapper samples `button_pin.is_low()`), not part of the state. -/
structure ButtonActorHw where
  actor : ButtonActor
  to_control : Channel ButtonMessage 4
deriving DecidableEq, Repr

/-- Wrapper construction (src/button_hw.rs `ButtonActorHw::new`), with the
channel state made explicit. -/
def ButtonActorHw.new (to_control : Channel ButtonMessage 4) : ButtonActorHw :=
  { actor := ButtonActor.new, to_control := to_control }

/-- One wrapper step (src/button_hw.rs `ButtonActorHw::step`): latch the
sampled pin level (`is_low`, i.e. pressed) into the actor, run the state
machine, and on a state change into `Notifying` / `Released` hand the
corresponding message to `try_send`. The second component is the message
handed to `try_send` this step (`none` when no send happened). -/
def ButtonActorHw.step (hw : ButtonActorHw) (pin_low : Bool) :
    ButtonActorHw × Option ButtonMessage :=
  let a0 := { hw.actor with pressed := pin_low }
  let old_state := a0.state
  let a1 := a0.step
  if old_state ≠ a1.state then
    match a1.state with
    | .Notifying =>
        ({ actor := a1, to_control := (hw.to_control.trySend .Pressed).1 },
         some .Pressed)
    | .Released =>
        ({ actor := a1, to_control := (hw.to_control.trySend .Released).1 },
         some .Released)
    | _ => ({ actor := a1, to_control := hw.to_control }, none)
  else ({ actor := a1, to_control := hw.to_control }, none)

/-- Iterate `ButtonActorHw.step` over a list of sampled pin levels (one
sample per debounce tick, as `button_task` in src/main.rs does), collecting
the messages handed to `try_send` in order. -/
def ButtonActorHw.run (hw : ButtonActorHw) :
    List Bool → ButtonActorHw × List ButtonMessage
  | [] => (hw, [])
  | p :: ps =>
      let r1 := hw.step p
      let r2 := r1.1.run ps
      (r2.1, r1.2.toList ++ r2.2)

/-- Maintenance wrapper state (src/maintenance_hw.rs `MaintenanceActorHw`):
the actor, the physical LED output level (`Output` pin, `true` = high),
and the outbound capacity-2 channel. -/
structure MaintenanceActorHw where
  actor : MaintenanceActor
  led : Bool
  to_control : Channel MaintenanceMessage 2
deriving DecidableEq, Repr

/-- One wrapper step (src/maintenance_hw.rs `MaintenanceActorHw::step`):
run the state machine; on a state change into `Toggling` drive the LED
high when `led_state` is set and low otherwise; on a state change into
`Reporting` hand the `{system_ok, led_state, tick_count}` snapshot to
`try_send`. The second component is the message handed to `try_send` this
step (`none` when no send happened). -/
def MaintenanceActorHw.step (hw : MaintenanceActorHw) :
    MaintenanceActorHw × Option MaintenanceMessage :=
  let old_state := hw.actor.state
  let a1 := hw.actor.step
  if old_state ≠ a1.state then
    match a1.state with
    | .Toggling =>
        ({ actor := a1, led := if a1.led_state then true else false,
           to_control := hw.to_control }, none)
    | .Reporting =>
        let msg : MaintenanceMessage :=
          { system_ok := a1.system_ok, led_state := a1.led_state,
            tick_count := a1.tick_count }
        ({ actor := a1, led := hw.led,
           to_control := (hw.to_control.trySend msg).1 }, some msg)
    | _ => ({ actor := a1, led := hw.led, to_control := hw.to_control }, none)
  else ({ actor := a1, led := hw.led, to_control := hw.to_control }, none)

/-- Control wrapper state (src/control_hw.rs `ControlActorHw`): the actor
and its two inbound channels. -/
structure ControlActorHw where
  actor : RealtimeControlActor
  from_button : Channel ButtonMessage 4
  from_maintenance : Channel MaintenanceMessage 2
deriving DecidableEq, Repr

/-- One wrapper step (src/control_hw.rs `ControlActorHw::step`): drain the
button channel with a `try_receive` loop (each message is only logged),
then drain the maintenance channel the same way, then run the state
machine. The drained message lists are returned as the observation of what
was logged, in receive order. -/
def ControlActorHw.step (hw : ControlActorHw) :
    ControlActorHw × List ButtonMessage × List MaintenanceMessage :=
  let rb := hw.from_button.drain
  let rm := hw.from_maintenance.drain
  ({ actor := hw.actor.step, from_button := rb.2, from_maintenance := rm.2 },
   rb.1, rm.1)

/-! ## Control task loop timing (src/main.rs `control_task`) -/

/-- Observable outcome of the tail of one `control_task` loop iteration:
the deadline-miss overruns logged (in order) and the duration slept before
the next iteration, in the same time unit as the inputs. -/
structure ControlIterationResult where
  deadline_misses : List Nat
  slept : Option Nat
deriving DecidableEq, Repr

/-- Timing tail of one `control_task` iteration (src/main.rs lines 36-52):
with `elapsed` the measured work duration of `actor.step()` and `period`
the configured target period, the code sleeps for `period - elapsed` when
`elapsed < period`, and otherwise logs a single deadline-miss event
carrying `elapsed - period` and proceeds without sleeping. -/
def controlIterationTiming (elapsed period : Nat) : ControlIterationResult :=
  if elapsed < period then
    { deadline_misses := [], slept := some (period - elapsed) }
  else
    { deadline_misses := [elapsed - period], slept := none }

/-! ## General lemmas about the channel model -/

/-- Draining pops exactly the pending queue, front first, and leaves the
channel empty. -/
theorem Channel.drainQueue_eq {α : Type} {cap : Nat} (l : List α) :
    Channel.drainQueue l = (l, (⟨[]⟩ : Channel α cap)) := by
  induction l with
  | nil => rfl
  | cons m rest ih => simp [Channel.drainQueue, ih]

/-- Draining a channel yields its queue in FIFO order and empties it. -/
theorem Channel.drain_eq {α : Type} {cap : Nat} (c : Channel α cap) :
    c.drain = (c.queue, (⟨[]⟩ : Channel α cap)) := by
  simp [Channel.drain, Channel.drainQueue_eq]

/-- The drain function is the fixpoint of the source's
`while let Ok(msg) = try_receive()` loop: stop when `tryReceive` fails,
otherwise prepend the received message to the drain of the remainder. -/
theorem Channel.drain_tryReceive {α : Type} {cap : Nat} (c : Channel α cap) :
    c.drain = match c.tryReceive with
      | none => ([], c)
      | some (m, c') => (m :: c'.drain.1, c'.drain.2) := by
  obtain ⟨q⟩ := c
  cases q with
  | nil => rfl
  | cons m rest => simp [Channel.drain, Channel.tryReceive, Channel.drainQueue]

/-- Sending a list of messages into a channel appends, in order, exactly
as many of them as there is room for; the rest are dropped. -/
theorem Channel.sendAll_queue {α : Type} {cap : Nat} (msgs : List α)
    (c : Channel α cap) :
    (c.sendAll msgs).queue = c.queue ++ msgs.take (cap - c.queue.length) := by
  induction msgs generalizing c with
  | nil => simp [Channel.sendAll]
  | cons m rest ih =>
      by_cases h : c.queue.length < cap
      · have hpos : 0 < cap - c.queue.length := by omega
        obtain ⟨k, hk⟩ : ∃ k, cap - c.queue.length = k + 1 :=
          ⟨cap - c.queue.length - 1, by omega⟩
        simp only [Channel.sendAll, Channel.trySend, if_pos h, ih]
        simp [hk]
        omega
      · have h0 : cap - c.queue.length = 0 := by omega
        simp only [Channel.sendAll, Channel.trySend, if_neg h, ih]
        simp [h0]

/-! ## Claim theorems -/

/-- Claim C9: every default-constructed actor starts with its documented
initial state and zero/default fields: `ButtonActor::new()` yields
state = Idle, pressed = false, press_count = 0; `MaintenanceActor::new()`
yields state = Idle, tick_count = 0, led_state = false, system_ok = true;
`RealtimeControlActor::new()` yields cycle_count = 0, enabled = true,
error_flag = false (tests/integration.rs assertions). -/
theorem claim_c9_actor_defaults :
    ButtonActor.new.state = .Idle ∧ ButtonActor.new.pressed = false ∧
      ButtonActor.new.press_count = 0 ∧
    MaintenanceActor.new.state = .Idle ∧ MaintenanceActor.new.tick_count = 0 ∧
      MaintenanceActor.new.led_state = false ∧
      MaintenanceActor.new.system_ok = true ∧
    RealtimeControlActor.new.cycle_count = 0 ∧
      RealtimeControlActor.new.enabled = true ∧
      RealtimeControlActor.new.error_flag = false := by
  decide

/-- Claim C10: the control actor's resulting state is independent of the
messages received: two `ControlActorHw::step` calls from equal actor
states but arbitrary, possibly different, channel contents produce equal
actor states — drained messages are only logged and discarded, never
passed to the actor's `step()`. -/
theorem claim_c10_control_state_message_independent
    (a : RealtimeControlActor) (fb fb' : Channel ButtonMessage 4)
    (fm fm' : Channel MaintenanceMessage 2) :
    ((ControlActorHw.mk a fb fm).step).1.actor =
      ((ControlActorHw.mk a fb' fm').step).1.actor :=
  rfl

/-- Claim C1, counterexample: at `elapsed = period` (here 1000 µs each)
the work duration does not exceed the period, yet the code takes the
deadline-miss branch and logs exactly one event (with overrun 0), refuting
the claimed equivalence with strict exceedance. -/
theorem claim_c1_counterexample :
    (controlIterationTiming 1000 1000).deadline_misses.length = 1 ∧
      ¬ (1000 : Nat) > 1000 := by
  decide

/-- Claim C1, amended: a deadline-miss event is logged iff the work
duration is at least the period (at exact equality a miss with overrun 0
is logged); when a miss is logged it is exactly one event carrying
`elapsed - period` and the task does not sleep; when the duration is under
the period no miss is logged and the task sleeps exactly
`period - elapsed`. -/
theorem claim_c1_amended (elapsed period : Nat) :
    ((controlIterationTiming elapsed period).deadline_misses ≠ [] ↔
      period ≤ elapsed) ∧
    (period ≤ elapsed →
      (controlIterationTiming elapsed period).deadline_misses =
          [elapsed - period] ∧
        (controlIterationTiming elapsed period).slept = none) ∧
    (elapsed < period →
      (controlIterationTiming elapsed period).deadline_misses = [] ∧
        (controlIterationTiming elapsed period).slept =
          some (period - elapsed)) := by
  by_cases h : elapsed < period
  · simp [controlIterationTiming, h]
    try omega
  · simp [controlIterationTiming, h]
    try omega

/-- Claim C1, amended, witness at concrete inputs: an iteration of
1500 µs against a 1000 µs period logs overrun 500; an iteration of 500 µs
sleeps 500. -/
theorem claim_c1_amended_witness :
    (controlIterationTiming 1500 1000).deadline_misses = [500] ∧
      (controlIterationTiming 500 1000).slept = some 500 :=
  ⟨((claim_c1_amended 1500 1000).2.1 (by decide)).1,
   ((claim_c1_amended 500 1000).2.2 (by decide)).2⟩

/-- Claim C7: `MaintenanceActorHw::step` writes the physical LED output
only on calls that transition into `Toggling`, and then drives it to match
`led_state`; every other step leaves the LED output unchanged. -/
theorem claim_c7_led_written_only_on_toggling (hw : MaintenanceActorHw) :
    (hw.step).1.led =
      if hw.actor.state ≠ (hw.step).1.actor.state ∧
          (hw.step).1.actor.state = MaintenanceActorState.Toggling
      then (hw.step).1.actor.led_state
      else hw.led := by
  obtain ⟨⟨s, t, l, ok⟩, led, ch⟩ := hw
  cases s <;> cases l <;>
    simp [MaintenanceActorHw.step, MaintenanceActor.step]

/-- Claim C8: from every maintenance actor state (hence from every state
reachable from the initial one), each `step()` advances exactly one
position in the fixed cycle Idle→Checking→Toggling→Reporting→Idle, and
four consecutive steps return the state machine to its starting state with
`led_state` toggled exactly once and `tick_count` increased by exactly
4. -/
theorem claim_c8_maintenance_cycle (a : MaintenanceActor) :
    (a.step.state).pos = ((a.state).pos + 1) % 4 ∧
    (a.step.step.step.step).state = a.state ∧
    (a.step.step.step.step).led_state = !a.led_state ∧
    (a.step.step.step.step).tick_count = a.tick_count + 4 := by
  obtain ⟨s, t, l, ok⟩ := a
  cases s <;>
    simp [MaintenanceActor.step, MaintenanceActorState.pos] <;> omega

/-- Claim C5: for a bounded channel of any capacity (4 for
button→control, 2 for maintenance→control): sending `k ≤ capacity`
messages and then receiving yields all `k` in FIFO order; sending any
excess beyond capacity leaves exactly the first `capacity` messages
deliverable (the excess dropped); and a `try_send` against a full channel
never blocks — it returns failure with the channel, hence the producer's
state, unchanged, while a send with room appends and succeeds. -/
theorem claim_c5_channel_fifo_bounded {α : Type} (cap : Nat) (msgs : List α) :
    ((Channel.new : Channel α cap).sendAll msgs).queue = msgs.take cap ∧
    (msgs.length ≤ cap →
      (((Channel.new : Channel α cap).sendAll msgs).drain.1 = msgs)) ∧
    (∀ c : Channel α cap, ∀ m : α, ¬ c.queue.length < cap →
      c.trySend m = (c, false)) ∧
    (∀ c : Channel α cap, ∀ m : α, c.queue.length < cap →
      (c.trySend m).1.queue = c.queue ++ [m] ∧ (c.trySend m).2 = true) := by
  have hq : ((Channel.new : Channel α cap).sendAll msgs).queue = msgs.take cap := by
    simp [Channel.sendAll_queue, Channel.new]
  refine ⟨hq, ?_, ?_, ?_⟩
  · intro hlen
    simp [Channel.drain_eq, hq, List.take_of_length_le hlen]
  · intro c m h
    simp [Channel.trySend, h]
  · intro c m h
    simp [Channel.trySend, h]

/-- Claim C5, witness: into the capacity-4 button channel, five sends
keep exactly the first four messages; into the capacity-2 maintenance
channel, two sends are all drained back in FIFO order; and a send against
the full button channel returns failure with the channel unchanged. -/
theorem claim_c5_channel_fifo_bounded_witness :
    ((Channel.new : Channel ButtonMessage 4).sendAll
        [.Pressed, .Released, .Pressed, .Released, .Pressed]).queue =
      [.Pressed, .Released, .Pressed, .Released] ∧
    ((Channel.new : Channel MaintenanceMessage 2).sendAll
        [⟨true, false, 1⟩, ⟨false, true, 2⟩]).drain.1 =
      [⟨true, false, 1⟩, ⟨false, true, 2⟩] ∧
    Channel.trySend (⟨[.Pressed, .Released, .Pressed, .Released]⟩ :
        Channel ButtonMessage 4) .Pressed =
      (⟨[.Pressed, .Released, .Pressed, .Released]⟩, false) := by
  refine ⟨?_, ?_, ?_⟩
  · have h := (@claim_c5_channel_fifo_bounded ButtonMessage 4
      [.Pressed, .Released, .Pressed, .Released, .Pressed]).1
    simpa using h
  · exact (@claim_c5_channel_fifo_bounded MaintenanceMessage 2
      [⟨true, false, 1⟩, ⟨false, true, 2⟩]).2.1 (by decide)
  · exact (@claim_c5_channel_fifo_bounded ButtonMessage 4 []).2.2.1
      ⟨[.Pressed, .Released, .Pressed, .Released]⟩ .Pressed (by decide)

/-- Claim C6: `MaintenanceActorHw::step` hands a message to `try_send` if
and only if the actor transitioned into `Reporting` during that call, and
the message is exactly the `{system_ok, led_state, tick_count}` snapshot
of the actor's fields as they stand immediately after the step. -/
theorem claim_c6_maintenance_report_snapshot (hw : MaintenanceActorHw) :
    ((hw.step).2.isSome ↔
      hw.actor.state ≠ (hw.step).1.actor.state ∧
        (hw.step).1.actor.state = MaintenanceActorState.Reporting) ∧
    (∀ msg : MaintenanceMessage, (hw.step).2 = some msg →
      msg = { system_ok := (hw.step).1.actor.system_ok,
              led_state := (hw.step).1.actor.led_state,
              tick_count := (hw.step).1.actor.tick_count }) := by
  obtain ⟨⟨s, t, l, ok⟩, led, ch⟩ := hw
  cases s <;>
    simp [MaintenanceActorHw.step, MaintenanceActor.step]

/-- Claim C6, witness: stepping the wrapper from state `Toggling` enters
`Reporting` and hands exactly the post-step snapshot to `try_send`. -/
theorem claim_c6_maintenance_report_snapshot_witness :
    (((MaintenanceActorHw.mk ⟨.Toggling, 0, true, true⟩ true
        Channel.new).step).2.isSome ↔
      (MaintenanceActorHw.mk ⟨.Toggling, 0, true, true⟩ true
          Channel.new).actor.state ≠
        (((MaintenanceActorHw.mk ⟨.Toggling, 0, true, true⟩ true
            Channel.new).step).1.actor.state) ∧
        (((MaintenanceActorHw.mk ⟨.Toggling, 0, true, true⟩ true
            Channel.new).step).1.actor.state) =
          MaintenanceActorState.Reporting) ∧
    (⟨true, true, 1⟩ : MaintenanceMessage) =
      { system_ok := ((MaintenanceActorHw.mk ⟨.Toggling, 0, true, true⟩ true
          Channel.new).step).1.actor.system_ok,
        led_state := ((MaintenanceActorHw.mk ⟨.Toggling, 0, true, true⟩ true
          Channel.new).step).1.actor.led_state,
        tick_count := ((MaintenanceActorHw.mk ⟨.Toggling, 0, true, true⟩ true
          Channel.new).step).1.actor.tick_count } :=
  ⟨(claim_c6_maintenance_report_snapshot
      (MaintenanceActorHw.mk ⟨.Toggling, 0, true, true⟩ true Channel.new)).1,
   (claim_c6_maintenance_report_snapshot
      (MaintenanceActorHw.mk ⟨.Toggling, 0, true, true⟩ true Channel.new)).2
      ⟨true, true, 1⟩ (by decide)⟩

/-- Claim C2, counterexample: from actor state `Released` with the pin
sampled unpressed, `ButtonActorHw::step` changes the state (to `Idle`) yet
hands no message to `try_send`, refuting "a message is sent if and only if
the state changed". -/
theorem claim_c2_counterexample :
    ((ButtonActorHw.mk ⟨.Released, false, 1⟩
        ⟨[.Pressed, .Released]⟩).step false).1.actor.state ≠
      (ButtonActorHw.mk ⟨.Released, false, 1⟩
        ⟨[.Pressed, .Released]⟩).actor.state ∧
    ((ButtonActorHw.mk ⟨.Released, false, 1⟩
        ⟨[.Pressed, .Released]⟩).step false).2 = none := by
  decide

/-- Claim C2, amended: `ButtonActorHw::step` hands `ButtonMessage::Pressed`
to `try_send` exactly on a state change into `Notifying` and
`ButtonMessage::Released` exactly on a state change into `Released` (one
message each); a step that leaves the state unchanged — and likewise a
state change into any other state, such as the return to `Idle` — sends
nothing. -/
theorem claim_c2_amended (hw : ButtonActorHw) (pin_low : Bool) :
    ((hw.step pin_low).2 = some ButtonMessage.Pressed ↔
      hw.actor.state ≠ (hw.step pin_low).1.actor.state ∧
        (hw.step pin_low).1.actor.state = ButtonActorState.Notifying) ∧
    ((hw.step pin_low).2 = some ButtonMessage.Released ↔
      hw.actor.state ≠ (hw.step pin_low).1.actor.state ∧
        (hw.step pin_low).1.actor.state = ButtonActorState.Released) ∧
    (hw.actor.state = (hw.step pin_low).1.actor.state →
      (hw.step pin_low).2 = none) := by
  obtain ⟨⟨s, p, c⟩, ch⟩ := hw
  cases s <;> cases pin_low <;>
    simp [ButtonActorHw.step, ButtonActor.step]

/-- Claim C2, amended, witness: from the freshly constructed wrapper a
pressed sample changes state into `Notifying`, and the step hands exactly
`ButtonMessage::Pressed` to `try_send`. -/
theorem claim_c2_amended_witness :
    ((ButtonActorHw.new Channel.new).step true).2 =
      some ButtonMessage.Pressed :=
  ((claim_c2_amended (ButtonActorHw.new Channel.new) true).1).mpr (by decide)

/-- Claim C4: `ControlActorHw::step` receives from both channels until
each is empty — consuming exactly the pending messages, hence at most 4
from the capacity-4 button channel and at most 2 from the capacity-2
maintenance channel, so each drain loop runs a bounded number of
iterations — and the actor's `step()` is applied exactly once, to an
actor state untouched by the drains. -/
theorem claim_c4_control_drains_then_steps (hw : ControlActorHw)
    (hb : hw.from_button.queue.length ≤ 4)
    (hm : hw.from_maintenance.queue.length ≤ 2) :
    (hw.step).1.from_button.queue = [] ∧
    (hw.step).1.from_maintenance.queue = [] ∧
    (hw.step).2.1 = hw.from_button.queue ∧
    (hw.step).2.2 = hw.from_maintenance.queue ∧
    (hw.step).2.1.length ≤ 4 ∧
    (hw.step).2.2.length ≤ 2 ∧
    (hw.step).1.actor = hw.actor.step := by
  obtain ⟨a, fb, fm⟩ := hw
  simp_all [ControlActorHw.step, Channel.drain_eq]

/-- Claim C4, witness: with one pending button message and one pending
maintenance message, the step drains both channels empty, logs exactly
those messages, and advances the actor once. -/
theorem claim_c4_control_drains_then_steps_witness :
    ((ControlActorHw.mk RealtimeControlActor.new ⟨[.Pressed]⟩
        ⟨[⟨true, false, 3⟩]⟩).step).1.from_button.queue = [] ∧
    ((ControlActorHw.mk RealtimeControlActor.new ⟨[.Pressed]⟩
        ⟨[⟨true, false, 3⟩]⟩).step).2.1 = [.Pressed] ∧
    ((ControlActorHw.mk RealtimeControlActor.new ⟨[.Pressed]⟩
        ⟨[⟨true, false, 3⟩]⟩).step).1.actor =
      RealtimeControlActor.new.step :=
  ⟨(claim_c4_control_drains_then_steps _ (by decide) (by decide)).1,
   (claim_c4_control_drains_then_steps
      (ControlActorHw.mk RealtimeControlActor.new ⟨[.Pressed]⟩
        ⟨[⟨true, false, 3⟩]⟩) (by decide) (by decide)).2.2.1,
   (claim_c4_control_drains_then_steps
      (ControlActorHw.mk RealtimeControlActor.new ⟨[.Pressed]⟩
        ⟨[⟨true, false, 3⟩]⟩) (by decide) (by decide)).2.2.2.2.2.2⟩

/-- Splitting a pin-sample trace: running the button wrapper over a
concatenation of traces runs the first, then continues from the wrapper
state it leaves, concatenating the handed-over messages. -/
theorem buttonRun_append (hw : ButtonActorHw) (xs ys : List Bool) :
    hw.run (xs ++ ys) =
      (((hw.run xs).1.run ys).1, (hw.run xs).2 ++ ((hw.run xs).1.run ys).2) := by
  induction xs generalizing hw with
  | nil => simp [ButtonActorHw.run]
  | cons p ps ih => simp [ButtonActorHw.run, ih]

/-- While the button stays pressed, a wrapper already in `Notifying`
is a fixed point: repeated pressed samples change nothing and send
nothing. -/
theorem buttonRun_held (k : Nat) :
    (ButtonActorHw.mk ⟨.Notifying, true, 1⟩ ⟨[.Pressed]⟩).run
        (List.replicate k true) =
      (ButtonActorHw.mk ⟨.Notifying, true, 1⟩ ⟨[.Pressed]⟩, []) := by
  induction k with
  | zero => rfl
  | succ k ih =>
      have hstep : (ButtonActorHw.mk ⟨.Notifying, true, 1⟩
          ⟨[.Pressed]⟩).step true =
          (ButtonActorHw.mk ⟨.Notifying, true, 1⟩ ⟨[.Pressed]⟩, none) := rfl
      simp [List.replicate_succ, ButtonActorHw.run, hstep, ih]

/-- While the button stays unpressed, a wrapper back in `Idle` is a fixed
point: repeated unpressed samples change nothing and send nothing. -/
theorem buttonRun_idle (k : Nat) :
    (ButtonActorHw.mk ⟨.Idle, false, 1⟩ ⟨[.Pressed, .Released]⟩).run
        (List.replicate k false) =
      (ButtonActorHw.mk ⟨.Idle, false, 1⟩ ⟨[.Pressed, .Released]⟩, []) := by
  induction k with
  | zero => rfl
  | succ k ih =>
      have hstep : (ButtonActorHw.mk ⟨.Idle, false, 1⟩
          ⟨[.Pressed, .Released]⟩).step false =
          (ButtonActorHw.mk ⟨.Idle, false, 1⟩ ⟨[.Pressed, .Released]⟩,
           none) := rfl
      simp [List.replicate_succ, ButtonActorHw.run, hstep, ih]

/-- After the release edge has fired, further unpressed samples send
nothing and leave the outbound channel untouched (the wrapper passes
through `Idle` and stays there). -/
theorem buttonRun_after_release (k : Nat) :
    ((ButtonActorHw.mk ⟨.Released, false, 1⟩
        ⟨[.Pressed, .Released]⟩).run (List.replicate k false)).2 = [] ∧
    ((ButtonActorHw.mk ⟨.Released, false, 1⟩
        ⟨[.Pressed, .Released]⟩).run (List.replicate k false)).1.to_control =
      (⟨[.Pressed, .Released]⟩ : Channel ButtonMessage 4) := by
  cases k with
  | zero => exact ⟨rfl, rfl⟩
  | succ k =>
      have hstep : (ButtonActorHw.mk ⟨.Released, false, 1⟩
          ⟨[.Pressed, .Released]⟩).step false =
          (ButtonActorHw.mk ⟨.Idle, false, 1⟩ ⟨[.Pressed, .Released]⟩,
           none) := rfl
      simp [List.replicate_succ, ButtonActorHw.run, hstep, buttonRun_idle]

/-- Claim C3: from the freshly constructed wrapper, sampling the pin
pressed for `n ≥ 1` consecutive debounce ticks and then unpressed for
`m ≥ 1` ticks hands exactly `[Pressed, Released]` to `try_send`, in that
order with no duplicates, for all `n` and `m`; and since the capacity-4
channel is not exhausted, both messages are pending in it afterwards. -/
theorem claim_c3_press_then_release (n m : Nat) (hn : 1 ≤ n) (hm : 1 ≤ m) :
    ((ButtonActorHw.new Channel.new).run
        (List.replicate n true ++ List.replicate m false)).2 =
      [.Pressed, .Released] ∧
    ((ButtonActorHw.new Channel.new).run
        (List.replicate n true ++ List.replicate m false)).1.to_control.queue =
      [.Pressed, .Released] := by
  obtain ⟨n', rfl⟩ : ∃ n', n = n' + 1 := ⟨n - 1, by omega⟩
  obtain ⟨m', rfl⟩ : ∃ m', m = m' + 1 := ⟨m - 1, by omega⟩
  have h1 : (ButtonActorHw.new Channel.new).run
      (List.replicate (n' + 1) true) =
      (ButtonActorHw.mk ⟨.Notifying, true, 1⟩ ⟨[.Pressed]⟩, [.Pressed]) := by
    have hstep : (ButtonActorHw.new Channel.new).step true =
        (ButtonActorHw.mk ⟨.Notifying, true, 1⟩ ⟨[.Pressed]⟩,
         some .Pressed) := rfl
    simp [List.replicate_succ, ButtonActorHw.run, hstep, buttonRun_held]
  have hstep2 : (ButtonActorHw.mk ⟨.Notifying, true, 1⟩
      ⟨[.Pressed]⟩).step false =
      (ButtonActorHw.mk ⟨.Released, false, 1⟩ ⟨[.Pressed, .Released]⟩,
       some .Released) := rfl
  have h2 := buttonRun_after_release m'
  rw [buttonRun_append, h1]
  constructor
  · simp [List.replicate_succ, ButtonActorHw.run, hstep2, h2.1]
  · simp [List.replicate_succ, ButtonActorHw.run, hstep2, h2.2]

/-- Claim C3, witness at the spec's end-to-end scenario: three pressed
ticks followed by three unpressed ticks hand exactly
`[Pressed, Released]` to the channel, which then holds both. -/
theorem claim_c3_press_then_release_witness :
    ((ButtonActorHw.new Channel.new).run
        (List.replicate 3 true ++ List.replicate 3 false)).2 =
      [.Pressed, .Released] ∧
    ((ButtonActorHw.new Channel.new).run
        (List.replicate 3 true ++ List.replicate 3 false)).1.to_control.queue =
      [.Pressed, .Released] :=
  claim_c3_press_then_release 3 3 (by decide) (by decide)

end Pico
